/-
Verification of the WebHookX deployment-chain engine.

This file embeds the core of the repository in Lean 4:
  * `utils.run_command` and `deploy_chain._exec_ssh_command` (command
    execution with benign-error handling),
  * `utils.verify_signature`,
  * `deploy_chain.deploy_chain`, `deploy_local`, `deploy_remote`,
    `_ensure_local_repo`, `_ensure_remote_repo`,
    `_detect_docker_compose_binary`, `run_local_tasks`, `run_remote_tasks`,
  * `routers/webhook.run_deploy_chain` together with the asyncio
    cancellation semantics of `cancel_existing_task`.

External effects (subprocess results, the filesystem, SSH command results)
are supplied by an explicit environment; the embedded functions return the
list of externally visible events (commands issued, notifications emitted)
together with the raised exception, if any, in place of Python's exceptions.
-/
import Mathlib

namespace WebHookX

/-- Result of one external command: exit status and captured
stdout/stderr text (joined chunks, as the Python code joins them). -/
structure CmdResult where
  exitCode : Int
  stdout : String
  stderr : String
  deriving Repr, DecidableEq

/-- Tests whether `ns` is a prefix of some suffix of the second list. -/
def infixOf (ns : List Char) : List Char → Bool
  | [] => ns.isEmpty
  | c :: t => ns.isPrefixOf (c :: t) || infixOf ns t

/-- Tests whether `needle` occurs as a contiguous substring of `hay`
(Python's `needle in hay`). -/
def substrIn (needle hay : String) : Bool :=
  infixOf needle.data hay.data

/-- Embedding of Python's `str.strip()`: drop whitespace from both ends. -/
def pyStrip (s : String) : String :=
  String.mk
    (((s.data.dropWhile Char.isWhitespace).reverse.dropWhile Char.isWhitespace).reverse)

/-- Embedding of Python's `str.startswith(pre)`. -/
def strStartsWith (s pre : String) : Bool :=
  pre.data.isPrefixOf s.data

/-- Embedding of Python's `str.lower()` (ASCII letters suffice here). -/
def strToLower (s : String) : String :=
  String.mk (s.data.map Char.toLower)

/-- Splits a character list at every occurrence of `c`
(Python's `str.split(c)` on a one-character separator). -/
def splitOnChar (c : Char) : List Char → List (List Char)
  | [] => [[]]
  | x :: t =>
    let r := splitOnChar c t
    if x = c then [] :: r
    else
      match r with
      | [] => [[x]]
      | h :: t2 => (x :: h) :: t2

/-- Embedding of Python's `signature.split('=')`. -/
def pySplitEq (s : String) : List String :=
  (splitOnChar '=' s.data).map String.mk

/-- Exceptions raised by the embedded code.  Each constructor models one
`raise` site and carries exactly the data that the Python message
interpolates. -/
inductive Err
  /-- From `utils.run_command`: `Exception(f"Command failed: {command}\nError: {e.stderr.strip()}")`.
  Note: the message carries the command and stderr but NOT the exit code. -/
  | calledProcess (command : String) (stderr : String)
  /-- From `_exec_ssh_command`: `RuntimeError(f"Command '{cmd}' failed with exit code {exit_status}. Error: {full_error_output}")`. -/
  | cmdFailed (cmd : String) (exitCode : Int) (stderr : String)
  /-- From `_ensure_local_repo` / `_ensure_remote_repo`: `FileNotFoundError` for a
  missing deploy directory with `create_dir` false. -/
  | dirMissing (deploy_dir : String)
  /-- From `_ensure_local_repo` / `_ensure_remote_repo`: `ValueError` when
  `clone_url` is not specified. -/
  | noCloneUrl (deploy_dir : String)
  /-- From `deploy_remote`: `ValueError` for an unsupported `key_type`. -/
  | unsupportedKeyType (kt : String)
  /-- Failure of `paramiko.RSAKey.from_private_key_file`. -/
  | keyLoadFailed (path : String)
  /-- Failure of `ssh_client.connect`. -/
  | connectFailed (host : String)
  /-- From `_detect_docker_compose_binary`: `RuntimeError` when neither binary is found. -/
  | noComposeBinary
  deriving Repr, DecidableEq

/-- Notification statuses passed to `notifier.notify_deploy_event`. -/
inductive NStatus
  | successful
  | failed
  | ignored
  deriving Repr, DecidableEq

/-- The `details` argument of each `notify_deploy_event` call site,
structured by call site with the interpolated data. -/
inductive NMsg
  /-- From `deploy_chain`: branch-mismatch skip message. -/
  | branchMismatch (push_branch config_branch server_key : String)
  /-- From `deploy_chain`: unknown-target message. -/
  | unknownTarget (target : Option String) (server_key : String)
  /-- From `deploy_local`: the local-deployment-completed message. -/
  | localDone
  /-- From `deploy_remote`: remote server updated message. -/
  | remoteDone (host : String)
  /-- From the `deploy_local` / `deploy_remote` error path: `str(e)`. -/
  | errText (e : Err)
  /-- From the `run_local_tasks` error path: task failed message. -/
  | taskFailed (cmd : String)
  /-- From `routers/webhook.run_deploy_chain`: the all-servers-deployed message. -/
  | allDeployed
  /-- From the `routers/webhook.run_deploy_chain` failure path: error text. -/
  | chainError
  deriving Repr, DecidableEq

/-- Call sites of external commands, annotated with the interpolated data
of the command string built at that site. -/
inductive OpTag
  /-- Site of `git clone --branch <branch> <clone_url> <deploy_dir>`. -/
  | clone (url branch deploy_dir : String)
  /-- Site of `git pull origin <branch>` in `deploy_dir`. -/
  | pull (deploy_dir branch : String)
  /-- Site of `docker-compose down --remove-orphans` in `deploy_dir`. -/
  | down (deploy_dir : String)
  /-- Site of `docker-compose up` in `deploy_dir`; `build` records `--build`. -/
  | up (deploy_dir : String) (build : Bool)
  /-- Site of one command of `additional_terminal_tasks`. -/
  | task (cmd : String)
  /-- Site of the remote directory-existence check command. -/
  | dirCheck (deploy_dir : String)
  /-- Site of the remote `mkdir -p` for the parent directory. -/
  | mkParent (parent_dir : String)
  /-- Site of the remote `uname -s`. -/
  | uname
  /-- Site of the remote `which docker`. -/
  | whichDocker
  /-- Site of the remote `docker compose version`. -/
  | composeVersion
  /-- Site of the remote `which docker-compose`. -/
  | whichDockerCompose
  deriving Repr, DecidableEq

/-- Externally visible events, in program order. -/
inductive Ev
  /-- Event: a local command executed through `utils.run_command`. -/
  | cmd (tag : OpTag) (c : String)
  /-- Event: a remote command executed through `_exec_ssh_command`. -/
  | ssh (tag : OpTag) (c : String)
  /-- Event: `os.makedirs(parent_dir, exist_ok=True)`. -/
  | makeDirs (parent_dir : String)
  /-- Event: a successful `ssh_client.connect(...)`. -/
  | sshConnect (host : String)
  /-- Event: a call of `notifier.notify_deploy_event(repo, branch, status, msg)`. -/
  | notify (repo branch : String) (status : NStatus) (msg : NMsg)
  deriving Repr, DecidableEq

/-- Embedding of `utils.run_command`, given the subprocess result `r` of `command`:
`subprocess.run(..., check=True)` raises `CalledProcessError` on any
nonzero exit, which `run_command` re-raises as an `Exception` carrying the
command and the stripped stderr; on success it returns the stripped
stdout/stderr pair.  There is no benign-error handling here. -/
def run_command (r : CmdResult) (command : String) : Except Err (String × String) :=
  if r.exitCode ≠ 0 then
    .error (.calledProcess command (pyStrip r.stderr))
  else
    .ok (pyStrip r.stdout, pyStrip r.stderr)

/-- The benign stderr markers of `_exec_ssh_command`. -/
def benign_markers : List String :=
  ["No container found", "No containers to remove", "has active endpoints"]

/-- Embedding of `deploy_chain._exec_ssh_command`, given the remote result `r` of `cmd`:
on nonzero exit status, if `allow_benign_errors` and the stripped stderr
contains one of the benign markers, the error is ignored and the stripped
stdout is returned; otherwise a `RuntimeError` carrying the command, exit
code and stderr is raised.  On zero exit the stripped stdout is returned. -/
def exec_ssh_command (r : CmdResult) (cmd : String)
    (allow_benign_errors : Bool) : Except Err String :=
  let full_error_output := pyStrip r.stderr
  if r.exitCode ≠ 0 then
    if allow_benign_errors &&
        benign_markers.any (fun marker => substrIn marker full_error_output) then
      .ok (pyStrip r.stdout)
    else
      .error (.cmdFailed cmd r.exitCode full_error_output)
  else
    .ok (pyStrip r.stdout)

/-- Embedding of `utils.verify_signature`.  Here `hmacHex` abstracts
`hmac.new(secret.encode(), msg=body, digestmod=sha256).hexdigest()`;
`hmac.compare_digest` is string equality.  The body is a byte string. -/
def verify_signature (hmacHex : String → List Nat → String)
    (secret : String) (request_body : List Nat) (signature : Option String) : Bool :=
  if secret = "" then
    true
  else
    match signature with
    | none => false
    | some sig =>
      match pySplitEq sig with
      | [sha_name, sigHex] =>
        if sha_name ≠ "sha256" then false
        else hmacHex secret request_body = sigHex
      | _ => false

/-- Embedding of `os.path.dirname` (posixpath): everything up to the last
slash, with trailing slashes stripped unless the head is all slashes. -/
def dirname (p : String) : String :=
  let cs := p.data
  match cs.reverse.findIdx? (fun c => c = '/') with
  | none => ""
  | some k =>
    let head := cs.take (cs.length - k)
    if head.all (fun c => c = '/') then String.mk head
    else String.mk (head.reverse.dropWhile (fun c => c = '/')).reverse

/-- One entry of the `servers_config` mapping (one `serverN` value).
Optional fields mirror the `server_info.get(...)` accesses with their
defaults; `deploy_dir`, `host`, `user` and `key_path` are accessed by
subscript in the source and are modelled as required fields. -/
structure ServerInfo where
  target : Option String := none
  branch : Option String := none
  deploy_dir : String := ""
  clone_url : Option String := none
  create_dir : Bool := false
  force_rebuild : Bool := false
  use_sudo : Bool := false
  additional_terminal_tasks : List String := []
  host : String := ""
  port : Nat := 22
  user : String := ""
  key_type : Option String := none
  key_path : String := ""
  deriving Repr, DecidableEq

/-- The external world as seen by one target's deployment: filesystem
directory existence, the result of each local subprocess (keyed by call
site), the result of each remote SSH command (keyed by call site), and
whether key loading / connecting succeeds in `deploy_remote` and in
`run_remote_tasks`. -/
structure TargetEnv where
  isdir : String → Bool
  run : OpTag → CmdResult
  exec : OpTag → CmdResult
  keyLoadOk : Bool := true
  connectOk : Bool := true
  tasksKeyLoadOk : Bool := true
  tasksConnectOk : Bool := true

/-- Embedding of `deploy_chain._ensure_local_repo`.  Returns the events
issued and the exception raised, if any. -/
def ensure_local_repo (env : TargetEnv) (deploy_dir : String)
    (clone_url : Option String) (create_dir : Bool) (branch : String) :
    List Ev × Option Err :=
  if env.isdir deploy_dir then ([], none)
  else if !create_dir then ([], some (.dirMissing deploy_dir))
  else
    match clone_url with
    | none => ([], some (.noCloneUrl deploy_dir))
    | some url =>
      let parent_dir := dirname deploy_dir
      let mkEvs : List Ev :=
        if parent_dir ≠ "" && !env.isdir parent_dir then [.makeDirs parent_dir] else []
      let clone_cmd := s!"git clone --branch {branch} {url} \"{deploy_dir}\""
      let evs := mkEvs ++ [.cmd (.clone url branch deploy_dir) clone_cmd]
      match run_command (env.run (.clone url branch deploy_dir)) clone_cmd with
      | .error e => (evs, some e)
      | .ok _ => (evs, none)

/-- The `try` block of `deploy_chain.deploy_local`: ensure the
repository, `git pull`, and rebuild the containers when the pull output
lacks the "Already up to date." marker or `force_rebuild` is set. -/
def deploy_local_try (env : TargetEnv) (info : ServerInfo) : List Ev × Option Err :=
  let deploy_dir := info.deploy_dir
  let branch := info.branch.getD "main"
  match ensure_local_repo env deploy_dir info.clone_url info.create_dir branch with
  | (evs1, some e) => (evs1, some e)
  | (evs1, none) =>
    let git_cmd := s!"git pull origin {branch}"
    let evs2 := evs1 ++ [.cmd (.pull deploy_dir branch) git_cmd]
    match run_command (env.run (.pull deploy_dir branch)) git_cmd with
    | .error e => (evs2, some e)
    | .ok (out, _err) =>
      if !substrIn "Already up to date." out || info.force_rebuild then
        let docker_pre := if info.use_sudo then "sudo " else ""
        let down_cmd :=
          s!"cd {deploy_dir} && {docker_pre}docker-compose down --remove-orphans"
        let evs3 := evs2 ++ [.cmd (.down deploy_dir) down_cmd]
        match run_command (env.run (.down deploy_dir)) down_cmd with
        | .error e => (evs3, some e)
        | .ok _ =>
          let up_cmd :=
            s!"cd {deploy_dir} && {docker_pre}docker-compose up -d --build --remove-orphans"
          let evs4 := evs3 ++ [.cmd (.up deploy_dir true) up_cmd]
          match run_command (env.run (.up deploy_dir true)) up_cmd with
          | .error e => (evs4, some e)
          | .ok _ => (evs4, none)
      else
        (evs2, none)

/-- Embedding of `deploy_chain.deploy_local`: run the `try` block
(`deploy_local_try`), then notify `successful` at its end, or `failed`
(and re-raise) on any exception. -/
def deploy_local (env : TargetEnv) (info : ServerInfo)
    (repo_name push_branch : String) : List Ev × Option Err :=
  match deploy_local_try env info with
  | (evs, none) =>
    (evs ++ [.notify repo_name push_branch .successful .localDone], none)
  | (evs, some e) =>
    (evs ++ [.notify repo_name push_branch .failed (.errText e)], some e)

/-- Embedding of `deploy_chain.run_local_tasks`: run each task command in
order; the first failure notifies `failed` and re-raises, aborting the
remaining tasks. -/
def run_local_tasks (env : TargetEnv) (tasks : List String)
    (repo_name push_branch : String) : List Ev × Option Err :=
  match tasks with
  | [] => ([], none)
  | c :: rest =>
    let ev := Ev.cmd (.task c) c
    match run_command (env.run (.task c)) c with
    | .error e =>
      ([ev, .notify repo_name push_branch .failed (.taskFailed c)], some e)
    | .ok _ =>
      let restRes := run_local_tasks env rest repo_name push_branch
      (ev :: restRes.1, restRes.2)

/-- The parent-directory creation step of `_ensure_remote_repo`
(`mkdir -p` over SSH when the parent path is nonempty). -/
def remote_mk_parent (env : TargetEnv) (parent_dir : String) : List Ev × Option Err :=
  if parent_dir ≠ "" then
    let mk_parent := s!"mkdir -p \"{parent_dir}\""
    let mkEv := Ev.ssh (.mkParent parent_dir) mk_parent
    match exec_ssh_command (env.exec (.mkParent parent_dir)) mk_parent false with
    | .error e => ([mkEv], some e)
    | .ok _ => ([mkEv], none)
  else ([], none)

/-- Embedding of `deploy_chain._ensure_remote_repo`: check directory
existence with a shell test over SSH, then mirror the local ensure logic
with remote `mkdir -p` and `git clone`. -/
def ensure_remote_repo (env : TargetEnv) (deploy_dir : String)
    (clone_url : Option String) (create_dir : Bool) (branch : String) :
    List Ev × Option Err :=
  let check_cmd := s!"[ -d \"{deploy_dir}\" ] && echo \"EXISTS\" || echo \"NOT_EXISTS\""
  let checkEv := Ev.ssh (.dirCheck deploy_dir) check_cmd
  match exec_ssh_command (env.exec (.dirCheck deploy_dir)) check_cmd false with
  | .error e => ([checkEv], some e)
  | .ok result =>
    if pyStrip result = "EXISTS" then ([checkEv], none)
    else if !create_dir then ([checkEv], some (.dirMissing deploy_dir))
    else
      match clone_url with
      | none => ([checkEv], some (.noCloneUrl deploy_dir))
      | some url =>
        let parent_dir := dirname deploy_dir
        match remote_mk_parent env parent_dir with
        | (mkEvs, some e) => (checkEv :: mkEvs, some e)
        | (mkEvs, none) =>
          let cd_dir := if parent_dir = "" then "/" else parent_dir
          let clone_cmd :=
            s!"cd \"{cd_dir}\" && git clone --branch {branch} {url} \"{deploy_dir}\""
          let cloneEv := Ev.ssh (.clone url branch deploy_dir) clone_cmd
          match exec_ssh_command (env.exec (.clone url branch deploy_dir)) clone_cmd false with
          | .error e => (checkEv :: mkEvs ++ [cloneEv], some e)
          | .ok _ => (checkEv :: mkEvs ++ [cloneEv], none)

/-- First `try` of `deploy_chain._detect_docker_compose_binary`:
`which docker` and `docker compose version` (exceptions caught and
ignored); `some "docker compose"` when the version output carries the
marker. -/
def detect_compose_v2 (env : TargetEnv) : List Ev × Option String :=
  let wEv := Ev.ssh .whichDocker "which docker"
  match exec_ssh_command (env.exec .whichDocker) "which docker" false with
  | .error _ => ([wEv], none)
  | .ok _ =>
    let vEv := Ev.ssh .composeVersion "docker compose version"
    match exec_ssh_command (env.exec .composeVersion) "docker compose version" false with
    | .error _ => ([wEv, vEv], none)
    | .ok version_out =>
      if substrIn "Docker Compose version" version_out then
        ([wEv, vEv], some "docker compose")
      else ([wEv, vEv], none)

/-- Fallback of `_detect_docker_compose_binary`: on no v2 result, try
`which docker-compose`; `RuntimeError` if that fails too. -/
def detect_docker_compose_binary (env : TargetEnv) : List Ev × Except Err String :=
  match detect_compose_v2 env with
  | (evs, some b) => (evs, .ok b)
  | (evs, none) =>
    let wcEv := Ev.ssh .whichDockerCompose "which docker-compose"
    match exec_ssh_command (env.exec .whichDockerCompose) "which docker-compose" false with
    | .ok _ => (evs ++ [wcEv], .ok "docker-compose")
    | .error _ => (evs ++ [wcEv], .error .noComposeBinary)

/-- The privilege-prefix determination of `deploy_remote`: `"sudo "` when
the config flag is set, otherwise inferred from `uname -s` (prefix iff the
remote OS reports Linux). -/
def sudo_pre (env : TargetEnv) (use_flag : Bool) : List Ev × Except Err String :=
  if use_flag then ([], .ok "sudo ")
  else
    let uEv := Ev.ssh .uname "uname -s"
    match exec_ssh_command (env.exec .uname) "uname -s" false with
    | .error e => ([uEv], .error e)
    | .ok os_type =>
      ([uEv], .ok (if substrIn "Linux" (pyStrip os_type) then "sudo " else ""))

/-- The `try` block of `deploy_chain.deploy_remote`: connect, ensure the
remote repository, `git pull`, decide on a rebuild, detect the compose
binary, determine the privilege prefix, and bring the stack down/up. -/
def deploy_remote_try (env : TargetEnv) (info : ServerInfo) : List Ev × Option Err :=
  let host := info.host
  let branch := info.branch.getD "main"
  let deploy_dir := info.deploy_dir
  if !env.connectOk then ([], some (.connectFailed host))
  else
    let cEv := Ev.sshConnect host
    match ensure_remote_repo env deploy_dir info.clone_url info.create_dir branch with
    | (evs1, some e) => (cEv :: evs1, some e)
    | (evs1, none) =>
      let pull_cmd := s!"cd {deploy_dir} && git pull origin {branch}"
      let pullEv := Ev.ssh (.pull deploy_dir branch) pull_cmd
      match exec_ssh_command (env.exec (.pull deploy_dir branch)) pull_cmd false with
      | .error e => (cEv :: evs1 ++ [pullEv], some e)
      | .ok pull_output =>
        let do_rebuild :=
          info.force_rebuild || !substrIn "Already up to date." pull_output
        match detect_docker_compose_binary env with
        | (detEvs, .error e) => (cEv :: evs1 ++ [pullEv] ++ detEvs, some e)
        | (detEvs, .ok docker_compose_bin) =>
          match sudo_pre env info.use_sudo with
          | (preEvs, .error e) => (cEv :: evs1 ++ [pullEv] ++ detEvs ++ preEvs, some e)
          | (preEvs, .ok docker_pre) =>
            let evs2 := cEv :: evs1 ++ [pullEv] ++ detEvs ++ preEvs
            if do_rebuild then
              let down_cmd :=
                s!"cd {deploy_dir} && {docker_pre}{docker_compose_bin} down --remove-orphans"
              let downEv := Ev.ssh (.down deploy_dir) down_cmd
              match exec_ssh_command (env.exec (.down deploy_dir)) down_cmd true with
              | .error e => (evs2 ++ [downEv], some e)
              | .ok _ =>
                let up_cmd :=
                  s!"cd {deploy_dir} && {docker_pre}{docker_compose_bin} up -d --build --remove-orphans"
                let upEv := Ev.ssh (.up deploy_dir true) up_cmd
                match exec_ssh_command (env.exec (.up deploy_dir true)) up_cmd false with
                | .error e => (evs2 ++ [downEv, upEv], some e)
                | .ok _ => (evs2 ++ [downEv, upEv], none)
            else
              let up_cmd :=
                s!"cd {deploy_dir} && {docker_pre}{docker_compose_bin} up -d"
              let upEv := Ev.ssh (.up deploy_dir false) up_cmd
              match exec_ssh_command (env.exec (.up deploy_dir false)) up_cmd false with
              | .error e => (evs2 ++ [upEv], some e)
              | .ok _ => (evs2 ++ [upEv], none)

/-- Embedding of `deploy_chain.deploy_remote`.  Key-type validation and
key loading occur before the `try` block, so their failures raise without
a `failed` notification; everything from `connect` on is the `try` block
(`deploy_remote_try`), whose `except` notifies `failed` and re-raises.
On the success path the `successful` notification carries the host. -/
def deploy_remote (env : TargetEnv) (info : ServerInfo)
    (repo_name push_branch : String) : List Ev × Option Err :=
  let key_type := info.key_type.getD "pem"
  if strToLower key_type = "pem" || strToLower key_type = "ppk" then
    if !env.keyLoadOk then ([], some (.keyLoadFailed info.key_path))
    else
      match deploy_remote_try env info with
      | (evs, none) =>
        (evs ++ [.notify repo_name push_branch .successful (.remoteDone info.host)], none)
      | (evs, some e) =>
        (evs ++ [.notify repo_name push_branch .failed (.errText e)], some e)
  else ([], some (.unsupportedKeyType key_type))

/-- Loop body of `deploy_chain.run_remote_tasks`: execute each task over
the established session; the first failure notifies `failed` and
re-raises. -/
def run_remote_tasks_loop (env : TargetEnv) (tasks : List String)
    (repo_name push_branch : String) : List Ev × Option Err :=
  match tasks with
  | [] => ([], none)
  | c :: rest =>
    let ev := Ev.ssh (.task c) c
    match exec_ssh_command (env.exec (.task c)) c false with
    | .error e =>
      ([ev, .notify repo_name push_branch .failed (.taskFailed c)], some e)
    | .ok _ =>
      let restRes := run_remote_tasks_loop env rest repo_name push_branch
      (ev :: restRes.1, restRes.2)

/-- Embedding of `deploy_chain.run_remote_tasks`: key loading and
connection happen inside the function (their failures raise without a
notification), then the task loop runs. -/
def run_remote_tasks (env : TargetEnv) (info : ServerInfo) (tasks : List String)
    (repo_name push_branch : String) : List Ev × Option Err :=
  if !env.tasksKeyLoadOk then ([], some (.keyLoadFailed info.key_path))
  else if !env.tasksConnectOk then ([], some (.connectFailed info.host))
  else
    let loopRes := run_remote_tasks_loop env tasks repo_name push_branch
    (Ev.sshConnect info.host :: loopRes.1, loopRes.2)

/-- Loop body of `deploy_chain.deploy_chain` for one `server_key`:
skip keys without the `server` name pattern, apply the branch gate (an
`ignored` notification and `continue`), dispatch on `target` (`if/elif/
else`, exactly as the Python conditional chain), and, when the deploy call
returned normally, run any `additional_terminal_tasks`.  Every exception
from the dispatched call or the tasks is caught by the surrounding
`try/except`, which only logs (the `raise` is commented out), so the loop
body is total and never aborts the chain. -/
def chain_step (env : TargetEnv) (repo_name push_branch : String)
    (server_key : String) (info : ServerInfo) : List Ev :=
  if !strStartsWith server_key "server" then []
  else
    let config_branch := info.branch.getD "main"
    if push_branch ≠ config_branch then
      [.notify repo_name push_branch .ignored
        (.branchMismatch push_branch config_branch server_key)]
    else
      let tasks := info.additional_terminal_tasks
      if info.target = some "local" then
        match deploy_local env info repo_name push_branch with
        | (evs, some _) => evs
        | (evs, none) =>
          if !tasks.isEmpty then
            evs ++ (run_local_tasks env tasks repo_name push_branch).1
          else evs
      else if info.target = some "remote" then
        match deploy_remote env info repo_name push_branch with
        | (evs, some _) => evs
        | (evs, none) =>
          if !tasks.isEmpty then
            evs ++ (run_remote_tasks env info tasks repo_name push_branch).1
          else evs
      else
        [.notify repo_name push_branch .failed (.unknownTarget info.target server_key)]

/-- Lexicographic code-point comparison of character lists: the order
Python's `sorted` uses on strings. -/
def charListLe : List Char → List Char → Bool
  | [], _ => true
  | _ :: _, [] => false
  | a :: as, b :: bs =>
    if a.toNat < b.toNat then true
    else if b.toNat < a.toNat then false
    else charListLe as bs

/-- Lexicographic string comparison (Python's string `<=`). -/
def strLe (a b : String) : Bool := charListLe a.data b.data

/-- The iteration order of `deploy_chain.deploy_chain`:
`sorted(servers_config.keys())`, each key paired with its entry
(`servers_config[server_key]`); the configuration dictionary is modelled
as an association list. -/
def sorted_pairs (servers_config : List (String × ServerInfo)) :
    List (String × ServerInfo) :=
  ((servers_config.map Prod.fst).insertionSort (fun a b => strLe a b = true)).filterMap
    (fun k => (servers_config.lookup k).map (fun info => (k, info)))

/-- Embedding of `deploy_chain.deploy_chain`: iterate the sorted server
keys and concatenate each step's events.  The per-target environment is
indexed by the server key.  The function is total: the loop body catches
every exception, mirroring the Python `try/except` with the `raise`
commented out, and `notify_deploy_event` swallows its own delivery
errors. -/
def deploy_chain (env : String → TargetEnv) (repo_name push_branch : String)
    (servers_config : List (String × ServerInfo)) : List Ev :=
  (sorted_pairs servers_config).flatMap
    (fun p => chain_step (env p.1) repo_name push_branch p.1 p.2)

/-- Embedding of `routers/webhook.run_deploy_chain` under asyncio
semantics, as observed through the notifier and the issued commands.

The synchronous `deploy_chain` runs in an executor thread
(`loop.run_in_executor`); a `concurrent.futures` job cannot be interrupted
once it has started, so `task.cancel()` never stops an in-flight chain:
the thread always runs the chain to completion and issues all of its
events.  Cancellation only makes the awaiting coroutine raise
`asyncio.CancelledError` at its single await point, which skips the
terminal `successful` notification (cancellation notifications are
skipped, per the source comment).  Since `deploy_chain` always returns
normally (see `deploy_chain`), the `except Exception` branch that would
send a terminal `failed` notification is unreachable.

`cancelled`: whether `task.cancel()` was delivered before the coroutine
resumed from its await.  `executor_started`: whether the executor job had
already started when the cancellation arrived (if not, the job is
cancelled before running and the chain issues nothing). -/
def run_deploy_chain (cancelled executor_started : Bool)
    (env : String → TargetEnv) (repo_full_name push_branch : String)
    (sub_config : List (String × ServerInfo)) : List Ev :=
  if cancelled then
    if executor_started then deploy_chain env repo_full_name push_branch sub_config
    else []
  else
    deploy_chain env repo_full_name push_branch sub_config ++
      [.notify repo_full_name push_branch .successful .allDeployed]

/-- Model of the supersession scenario of `handle_webhook` steps 6–7
(`cancel_existing_task` then `asyncio.create_task`): run B is submitted
for the same `(repo, branch)` key while run A's executor job is running,
so A is cancelled mid-flight (`cancelled := true`, `executor_started :=
true`) and B runs uncancelled.  The pair collects the notifier-visible
events of each run. -/
def supersession_traces (envA envB : String → TargetEnv)
    (repo_full_name push_branch : String)
    (cfg : List (String × ServerInfo)) : List Ev × List Ev :=
  (run_deploy_chain true true envA repo_full_name push_branch cfg,
   run_deploy_chain false true envB repo_full_name push_branch cfg)

/-- Classifier: a notification event. -/
def Ev.isNotify : Ev → Bool
  | .notify _ _ _ _ => true
  | _ => false

/-- Classifier: a side-effecting operation (anything that is not a
notification: commands, directory creation, connections). -/
def Ev.isSideOp (e : Ev) : Bool := !e.isNotify

/-- Classifier: a terminal notification of `run_deploy_chain` (the
all-deployed success message or the chain-error failure message), as
opposed to the per-target notifications. -/
def Ev.isTerminal : Ev → Bool
  | .notify _ _ _ .allDeployed => true
  | .notify _ _ _ .chainError => true
  | _ => false

/-- Classifier: the successful terminal notification. -/
def Ev.isTerminalSuccess : Ev → Bool
  | .notify _ _ .successful .allDeployed => true
  | _ => false

/-- Classifier: any notification with status `failed`. -/
def Ev.isFailedNotify : Ev → Bool
  | .notify _ _ .failed _ => true
  | _ => false

/-- Classifier: an image-rebuilding container operation
(`docker-compose up` with `--build`, local or remote). -/
def Ev.isRebuild : Ev → Bool
  | .cmd (.up _ true) _ => true
  | .ssh (.up _ true) _ => true
  | _ => false

/-- Classifier: a container bring-up without image rebuild. -/
def Ev.isUpNoBuild : Ev → Bool
  | .cmd (.up _ false) _ => true
  | .ssh (.up _ false) _ => true
  | _ => false

/-- Classifier: a container teardown. -/
def Ev.isDown : Ev → Bool
  | .cmd (.down _) _ => true
  | .ssh (.down _) _ => true
  | _ => false

/-- Classifier: a clone operation. -/
def Ev.isClone : Ev → Bool
  | .cmd (.clone _ _ _) _ => true
  | .ssh (.clone _ _ _) _ => true
  | _ => false

/-- Classifier: the failure terminal notification of `run_deploy_chain`. -/
def Ev.isTerminalFailure : Ev → Bool
  | .notify _ _ .failed .chainError => true
  | _ => false

/-- Command result with the given stdout, exit status 0 and empty stderr. -/
def okOut (out : String) : CmdResult := CmdResult.mk 0 out ""

/-- Remote command results for a fully successful no-change deployment. -/
def execNoChange : OpTag → CmdResult
  | .dirCheck _ => okOut "EXISTS"
  | .pull _ _ => okOut "Already up to date."
  | .composeVersion => okOut "Docker Compose version v2.20.0"
  | .uname => okOut "Linux"
  | _ => okOut ""

/-- Local environment: directories exist, every command succeeds, pulls
report no changes. -/
def envLocalNoChange : TargetEnv :=
  TargetEnv.mk (fun _ => true) (fun _ => okOut "Already up to date.")
    (fun _ => okOut "") true true true true

/-- Remote environment: fully successful no-change deployment. -/
def envRemoteNoChange : TargetEnv :=
  TargetEnv.mk (fun _ => true) (fun _ => okOut "") execNoChange true true true true

/-- Environment in which no directory exists (every command succeeds):
with `create_dir = false` the sync step fails with a missing-directory
error. -/
def envNoDir : TargetEnv :=
  TargetEnv.mk (fun _ => false) (fun _ => okOut "") (fun _ => okOut "") true true true true

section TerminalLemmas

/-- Auxiliary: a `flatMap` whose pieces contain no `p`-events contains
none. -/
theorem countP_flatMap_zero {α : Type} (p : Ev → Bool) (f : α → List Ev)
    (h : ∀ x, (f x).countP p = 0) (l : List α) : (l.flatMap f).countP p = 0 := by
  induction l with
  | nil => rfl
  | cons x t ih => simp [List.flatMap_cons, List.countP_append, h x, ih]

/-- The local ensure step never emits a terminal notification. -/
theorem terminal_ensure_local (env : TargetEnv) (d : String) (u : Option String)
    (c : Bool) (b : String) :
    ((ensure_local_repo env d u c b).1).countP Ev.isTerminal = 0 := by
  unfold ensure_local_repo
  repeat' split <;>
    first
      | rfl
      | simp [Ev.isTerminal, List.countP_append, List.countP_cons, -List.countP_eq_zero]
      | skip

/-- The local task runner never emits a terminal notification. -/
theorem terminal_run_local_tasks (env : TargetEnv) (tasks : List String)
    (repo pb : String) :
    ((run_local_tasks env tasks repo pb).1).countP Ev.isTerminal = 0 := by
  induction tasks with
  | nil => rfl
  | cons c rest ih =>
    unfold run_local_tasks
    split <;>
      simp_all [Ev.isTerminal, List.countP_cons, -List.countP_eq_zero]

/-- The `try` block of the local deploy never emits a terminal
notification. -/
theorem terminal_deploy_local_try (env : TargetEnv) (info : ServerInfo) :
    ((deploy_local_try env info).1).countP Ev.isTerminal = 0 := by
  have hens := terminal_ensure_local env info.deploy_dir info.clone_url
    info.create_dir (info.branch.getD "main")
  unfold deploy_local_try
  repeat' split <;>
    first
      | rfl
      | simp_all [Ev.isTerminal, List.countP_append, List.countP_cons, -List.countP_eq_zero]
      | skip

/-- The local deploy never emits a terminal notification. -/
theorem terminal_deploy_local (env : TargetEnv) (info : ServerInfo)
    (repo pb : String) :
    ((deploy_local env info repo pb).1).countP Ev.isTerminal = 0 := by
  have htry := terminal_deploy_local_try env info
  unfold deploy_local
  repeat' split <;>
    first
      | rfl
      | simp_all [Ev.isTerminal, List.countP_append, List.countP_cons, -List.countP_eq_zero]
      | skip

/-- The remote parent-directory step never emits a terminal
notification. -/
theorem terminal_remote_mk_parent (env : TargetEnv) (parent_dir : String) :
    ((remote_mk_parent env parent_dir).1).countP Ev.isTerminal = 0 := by
  unfold remote_mk_parent
  repeat' split <;>
    first
      | rfl
      | simp [Ev.isTerminal, List.countP_cons, -List.countP_eq_zero]
      | skip

/-- The compose-v2 probe never emits a terminal notification. -/
theorem terminal_detect_v2 (env : TargetEnv) :
    ((detect_compose_v2 env).1).countP Ev.isTerminal = 0 := by
  unfold detect_compose_v2
  repeat' split <;>
    first
      | rfl
      | simp [Ev.isTerminal, List.countP_cons, -List.countP_eq_zero]
      | skip

/-- The privilege-prefix step never emits a terminal notification. -/
theorem terminal_sudo_pre (env : TargetEnv) (use_flag : Bool) :
    ((sudo_pre env use_flag).1).countP Ev.isTerminal = 0 := by
  unfold sudo_pre
  repeat' split <;>
    first
      | rfl
      | simp [Ev.isTerminal, List.countP_cons, -List.countP_eq_zero]
      | skip

/-- The remote ensure step never emits a terminal notification. -/
theorem terminal_ensure_remote (env : TargetEnv) (d : String) (u : Option String)
    (c : Bool) (b : String) :
    ((ensure_remote_repo env d u c b).1).countP Ev.isTerminal = 0 := by
  have hmk := terminal_remote_mk_parent env (dirname d)
  unfold ensure_remote_repo
  repeat' split <;>
    first
      | rfl
      | simp_all [Ev.isTerminal, List.countP_append, List.countP_cons, -List.countP_eq_zero]
      | skip

/-- Compose-binary detection never emits a terminal notification. -/
theorem terminal_detect (env : TargetEnv) :
    ((detect_docker_compose_binary env).1).countP Ev.isTerminal = 0 := by
  have hv2 := terminal_detect_v2 env
  unfold detect_docker_compose_binary
  repeat' split <;>
    first
      | rfl
      | simp_all [Ev.isTerminal, List.countP_append, List.countP_cons, -List.countP_eq_zero]
      | skip

/-- The `try` block of the remote deploy never emits a terminal
notification. -/
theorem terminal_deploy_remote_try (env : TargetEnv) (info : ServerInfo) :
    ((deploy_remote_try env info).1).countP Ev.isTerminal = 0 := by
  have hens := terminal_ensure_remote env info.deploy_dir info.clone_url
    info.create_dir (info.branch.getD "main")
  have hdet := terminal_detect env
  have hpre := terminal_sudo_pre env info.use_sudo
  unfold deploy_remote_try
  repeat' split <;>
    first
      | rfl
      | simp_all [Ev.isTerminal, List.countP_append, List.countP_cons, -List.countP_eq_zero]
      | skip

/-- The remote deploy never emits a terminal notification. -/
theorem terminal_deploy_remote (env : TargetEnv) (info : ServerInfo)
    (repo pb : String) :
    ((deploy_remote env info repo pb).1).countP Ev.isTerminal = 0 := by
  have htry := terminal_deploy_remote_try env info
  unfold deploy_remote
  repeat' split <;>
    first
      | rfl
      | simp_all [Ev.isTerminal, List.countP_append, List.countP_cons, -List.countP_eq_zero]
      | skip

/-- The remote task loop never emits a terminal notification. -/
theorem terminal_run_remote_tasks_loop (env : TargetEnv) (tasks : List String)
    (repo pb : String) :
    ((run_remote_tasks_loop env tasks repo pb).1).countP Ev.isTerminal = 0 := by
  induction tasks with
  | nil => rfl
  | cons c rest ih =>
    unfold run_remote_tasks_loop
    split <;>
      simp_all [Ev.isTerminal, List.countP_cons, -List.countP_eq_zero]

/-- The remote task runner never emits a terminal notification. -/
theorem terminal_run_remote_tasks (env : TargetEnv) (info : ServerInfo)
    (tasks : List String) (repo pb : String) :
    ((run_remote_tasks env info tasks repo pb).1).countP Ev.isTerminal = 0 := by
  have hloop := terminal_run_remote_tasks_loop env tasks repo pb
  unfold run_remote_tasks
  repeat' split <;>
    first
      | rfl
      | simp_all [Ev.isTerminal, List.countP_cons, -List.countP_eq_zero]
      | skip

/-- One chain step never emits a terminal notification: terminal
notifications come only from `run_deploy_chain` itself. -/
theorem terminal_chain_step (env : TargetEnv) (repo pb k : String)
    (info : ServerInfo) :
    (chain_step env repo pb k info).countP Ev.isTerminal = 0 := by
  have hl := terminal_deploy_local env info repo pb
  have hr := terminal_deploy_remote env info repo pb
  have hlt := terminal_run_local_tasks env info.additional_terminal_tasks repo pb
  have hrt := terminal_run_remote_tasks env info info.additional_terminal_tasks repo pb
  unfold chain_step
  repeat' split <;>
    first
      | rfl
      | simp_all [Ev.isTerminal, List.countP_append, List.countP_cons, -List.countP_eq_zero]
      | skip

/-- The whole chain never emits a terminal notification. -/
theorem terminal_deploy_chain (env : String → TargetEnv) (repo pb : String)
    (cfg : List (String × ServerInfo)) :
    (deploy_chain env repo pb cfg).countP Ev.isTerminal = 0 := by
  unfold deploy_chain
  exact countP_flatMap_zero Ev.isTerminal
    (fun p : String × ServerInfo => chain_step (env p.1) repo pb p.1 p.2)
    (fun p => terminal_chain_step (env p.1) repo pb p.1 p.2) _

/-- Auxiliary: if every `p`-event is a `q`-event and a list has no
`q`-events, it has no `p`-events. -/
theorem countP_zero_of_imp {α : Type} {p q : α → Bool}
    (h : ∀ a, p a = true → q a = true) (l : List α) (hq : l.countP q = 0) :
    l.countP p = 0 := by
  induction l with
  | nil => rfl
  | cons x t ih =>
    rw [List.countP_cons] at hq ⊢
    by_cases hqx : q x = true
    · rw [if_pos hqx] at hq
      omega
    · rw [if_neg hqx] at hq
      have hpx : ¬ p x = true := fun hp => hqx (h x hp)
      rw [if_neg hpx]
      simpa using ih (by simpa using hq)

/-- A successful terminal notification is a terminal notification. -/
theorem terminalSuccess_imp_terminal (e : Ev) (h : e.isTerminalSuccess = true) :
    e.isTerminal = true := by
  cases e with
  | notify r b st msg =>
    cases st <;> cases msg <;> simp_all [Ev.isTerminalSuccess, Ev.isTerminal]
  | cmd tag c => simp [Ev.isTerminalSuccess] at h
  | ssh tag c => simp [Ev.isTerminalSuccess] at h
  | makeDirs d => simp [Ev.isTerminalSuccess] at h
  | sshConnect hst => simp [Ev.isTerminalSuccess] at h

/-- A failure terminal notification is a terminal notification. -/
theorem terminalFailure_imp_terminal (e : Ev) (h : e.isTerminalFailure = true) :
    e.isTerminal = true := by
  cases e with
  | notify r b st msg =>
    cases st <;> cases msg <;> simp_all [Ev.isTerminalFailure, Ev.isTerminal]
  | cmd tag c => simp [Ev.isTerminalFailure] at h
  | ssh tag c => simp [Ev.isTerminalFailure] at h
  | makeDirs d => simp [Ev.isTerminalFailure] at h
  | sshConnect hst => simp [Ev.isTerminalFailure] at h

end TerminalLemmas

section OrderLemmas

/-- Characterization of `charListLe` on two cons cells. -/
theorem charListLe_cons (a b : Char) (as bs : List Char) :
    charListLe (a :: as) (b :: bs) = true ↔
      (a.toNat < b.toNat ∨ (a.toNat = b.toNat ∧ charListLe as bs = true)) := by
  by_cases h1 : a.toNat < b.toNat
  · simp [charListLe, h1]
  · by_cases h2 : b.toNat < a.toNat
    · simp [charListLe, h1, h2]
      omega
    · have heq : a.toNat = b.toNat := by omega
      simp [charListLe, h1, h2, heq]

/-- The lexicographic comparison is total. -/
theorem charListLe_total : ∀ as bs : List Char,
    charListLe as bs = true ∨ charListLe bs as = true := by
  intro as
  induction as with
  | nil => intro bs; left; rfl
  | cons a as ih =>
    intro bs
    cases bs with
    | nil => right; rfl
    | cons b bs =>
      rcases Nat.lt_trichotomy a.toNat b.toNat with h | h | h
      · left; rw [charListLe_cons]; exact Or.inl h
      · rcases ih bs with hr | hr
        · left; rw [charListLe_cons]; exact Or.inr ⟨h, hr⟩
        · right; rw [charListLe_cons]; exact Or.inr ⟨h.symm, hr⟩
      · right; rw [charListLe_cons]; exact Or.inl h

/-- The lexicographic comparison is transitive. -/
theorem charListLe_trans : ∀ as bs cs : List Char,
    charListLe as bs = true → charListLe bs cs = true →
    charListLe as cs = true := by
  intro as
  induction as with
  | nil => intro bs cs h1 h2; rfl
  | cons a as ih =>
    intro bs cs h1 h2
    cases bs with
    | nil => simp [charListLe] at h1
    | cons b bs =>
      cases cs with
      | nil => simp [charListLe] at h2
      | cons c cs =>
        rw [charListLe_cons] at h1 h2 ⊢
        rcases h1 with h1 | ⟨h1e, h1r⟩ <;> rcases h2 with h2 | ⟨h2e, h2r⟩
        · exact Or.inl (Nat.lt_trans h1 h2)
        · exact Or.inl (by omega)
        · exact Or.inl (by omega)
        · exact Or.inr ⟨by omega, ih bs cs h1r h2r⟩

/-- Characters with equal code points are equal. -/
theorem char_toNat_inj {a b : Char} (h : a.toNat = b.toNat) : a = b :=
  Char.ext (UInt32.ext h)

/-- The lexicographic comparison is antisymmetric. -/
theorem charListLe_antisymm : ∀ as bs : List Char,
    charListLe as bs = true → charListLe bs as = true → as = bs := by
  intro as
  induction as with
  | nil =>
    intro bs h1 h2
    cases bs with
    | nil => rfl
    | cons b bs => simp [charListLe] at h2
  | cons a as ih =>
    intro bs h1 h2
    cases bs with
    | nil => simp [charListLe] at h1
    | cons b bs =>
      rw [charListLe_cons] at h1 h2
      rcases h1 with h1 | ⟨h1e, h1r⟩
      · rcases h2 with h2 | ⟨h2e, h2r⟩ <;> omega
      · rcases h2 with h2 | ⟨h2e, h2r⟩
        · omega
        · have hab : a = b := char_toNat_inj h1e
          subst hab
          rw [ih bs h1r h2r]

instance : IsTotal String (fun a b => strLe a b = true) :=
  ⟨fun a b => charListLe_total a.data b.data⟩

instance : IsTrans String (fun a b => strLe a b = true) :=
  ⟨fun a b c => charListLe_trans a.data b.data c.data⟩

instance : IsAntisymm String (fun a b => strLe a b = true) :=
  ⟨fun a b h1 h2 => by
    cases a with
    | mk da =>
      cases b with
      | mk db => exact congrArg String.mk (charListLe_antisymm da db h1 h2)⟩

end OrderLemmas

section LookupLemmas

/-- A successful lookup result is a member of the association list. -/
theorem mem_of_lookup_eq_some {k : String} {v : ServerInfo}
    {l : List (String × ServerInfo)} (h : l.lookup k = some v) : (k, v) ∈ l := by
  induction l with
  | nil => simp [List.lookup] at h
  | cons p t ih =>
    rcases p with ⟨k2, v2⟩
    rw [List.lookup] at h
    by_cases hk : k = k2
    · subst hk
      simp at h
      subst h
      exact List.mem_cons_self _ _
    · have hb : (k == k2) = false := by simp [beq_eq_false_iff_ne, hk]
      rw [hb] at h
      exact List.mem_cons_of_mem _ (ih h)

/-- In an association list with distinct keys, membership determines the
lookup result. -/
theorem lookup_eq_some_of_mem {k : String} {v : ServerInfo}
    {l : List (String × ServerInfo)} (hnd : (l.map Prod.fst).Nodup)
    (h : (k, v) ∈ l) : l.lookup k = some v := by
  induction l with
  | nil => simp at h
  | cons p t ih =>
    rcases p with ⟨k2, v2⟩
    rw [List.map_cons, List.nodup_cons] at hnd
    rw [List.lookup]
    rcases List.mem_cons.mp h with heq | hmem
    · rw [Prod.mk.injEq] at heq
      rw [heq.1, heq.2]
      simp
    · by_cases hk : k2 = k
      · subst hk
        exact absurd (List.mem_map_of_mem Prod.fst hmem) hnd.1
      · have hb : (k == k2) = false := by
          simp [beq_eq_false_iff_ne]
          exact fun hh => hk hh.symm
        rw [hb]
        exact ih hnd.2 hmem

/-- A failed lookup means the key is absent. -/
theorem lookup_eq_none_iff {k : String} {l : List (String × ServerInfo)} :
    l.lookup k = none ↔ k ∉ l.map Prod.fst := by
  induction l with
  | nil => simp [List.lookup]
  | cons p t ih =>
    rcases p with ⟨k2, v2⟩
    rw [List.lookup]
    by_cases hk : k2 = k
    · subst hk
      simp
    · have hb : (k == k2) = false := by
        simp [beq_eq_false_iff_ne]
        exact fun hh => hk hh.symm
      rw [hb]
      simp only [List.map_cons, List.mem_cons]
      rw [ih]
      constructor
      · intro h1 h2
        rcases h2 with h2 | h2
        · exact hk h2.symm
        · exact h1 h2
      · intro h1
        exact fun h2 => h1 (Or.inr h2)

/-- Permuting an association list with distinct keys does not change
lookups. -/
theorem lookup_perm {l l2 : List (String × ServerInfo)} (hp : l.Perm l2)
    (hnd : (l.map Prod.fst).Nodup) (k : String) : l.lookup k = l2.lookup k := by
  cases h2 : l2.lookup k with
  | some v =>
    exact lookup_eq_some_of_mem hnd (hp.symm.subset (mem_of_lookup_eq_some h2))
  | none =>
    cases h1 : l.lookup k with
    | none => rfl
    | some v =>
      have hmem := mem_of_lookup_eq_some h1
      have : k ∈ l2.map Prod.fst :=
        List.mem_map_of_mem Prod.fst (hp.subset hmem)
      exact absurd this (lookup_eq_none_iff.mp h2)

end LookupLemmas

/-- A one-target configuration whose local deployment fails: the deploy
directory is absent and `create_dir` is false. -/
def cfgFailing : List (String × ServerInfo) :=
  [("server1", ServerInfo.mk (some "local") (some "main") "/srv/app"
      none false false false [] "" 22 "" none "")]

/-- A two-target local configuration (both targets deploy "main"). -/
def cfgTwo : List (String × ServerInfo) :=
  [("server1", ServerInfo.mk (some "local") (some "main") "/a"
      none false false false [] "" 22 "" none ""),
   ("server2", ServerInfo.mk (some "local") (some "main") "/b"
      none false false false [] "" 22 "" none "")]

section Theorems

/-- C10: when no webhook secret is configured (empty secret),
`verify_signature` returns true for every request body and every
signature header, including a missing one — webhook payloads are accepted
unverified. -/
theorem C10_no_secret_accepts_all (hmacHex : String → List Nat → String)
    (body : List Nat) (signature : Option String) :
    verify_signature hmacHex "" body signature = true := by
  simp [verify_signature]

/-- C5 counterexample: the claim asserts benign-marker handling "in both
the local and the remote execution paths", but the local path
(`utils.run_command`) has none: a command with nonzero exit whose stderr
carries the benign marker "has active endpoints" still fails (and the
raised error carries the command and stderr only, not the exit code). -/
theorem C5_counterexample :
    run_command
        (CmdResult.mk 1 "" "network webhookx_default has active endpoints")
        "docker-compose down --remove-orphans" =
      .error (.calledProcess "docker-compose down --remove-orphans"
        "network webhookx_default has active endpoints") := by
  rfl

/-- C5 amended: in the remote execution path (`_exec_ssh_command`),
`allow_benign_errors = true` with nonzero exit and one of the benign
markers in the captured stderr returns success (the stdout result); every
other nonzero exit fails with an error carrying the command, exit code
and stderr.  The local path (`utils.run_command`) has no benign
handling: every nonzero exit fails, and the raised error carries only
the command and the stderr. -/
theorem C5_amended_benign_handling (r : CmdResult) (c : String)
    (hne : r.exitCode ≠ 0) :
    (benign_markers.any (fun m => substrIn m (pyStrip r.stderr)) = true →
      exec_ssh_command r c true = .ok (pyStrip r.stdout))
    ∧ (∀ ab : Bool,
        (ab && benign_markers.any (fun m => substrIn m (pyStrip r.stderr))) = false →
        exec_ssh_command r c ab = .error (.cmdFailed c r.exitCode (pyStrip r.stderr)))
    ∧ run_command r c = .error (.calledProcess c (pyStrip r.stderr)) := by
  refine ⟨fun hb => ?_, fun ab hab => ?_, ?_⟩ <;>
    simp_all [exec_ssh_command, run_command]

/-- Witness for C5: a concrete benign teardown failure is accepted by the
remote path and rejected by the local path. -/
theorem C5_amended_benign_handling_witness :
    ((CmdResult.mk 1 "ok" "network x has active endpoints").exitCode ≠ 0)
    ∧ exec_ssh_command (CmdResult.mk 1 "ok" "network x has active endpoints")
        "docker compose down" true = .ok "ok"
    ∧ run_command (CmdResult.mk 1 "ok" "network x has active endpoints")
        "docker compose down" =
      .error (.calledProcess "docker compose down" "network x has active endpoints") := by
  refine ⟨by decide, ?_, ?_⟩
  · exact (C5_amended_benign_handling
      (CmdResult.mk 1 "ok" "network x has active endpoints")
      "docker compose down" (by decide)).1 (by decide)
  · exact (C5_amended_benign_handling
      (CmdResult.mk 1 "ok" "network x has active endpoints")
      "docker compose down" (by decide)).2.2

/-- C7: a target whose configured branch (default "main") differs from the
pushed branch is skipped with a single informational (`ignored`)
notification and zero sync, container, or task operations. -/
theorem C7_branch_gate (env : TargetEnv) (repo_name push_branch server_key : String)
    (info : ServerInfo)
    (hserver : strStartsWith server_key "server" = true)
    (hmismatch : push_branch ≠ info.branch.getD "main") :
    chain_step env repo_name push_branch server_key info =
      [.notify repo_name push_branch .ignored
        (.branchMismatch push_branch (info.branch.getD "main") server_key)]
    ∧ (chain_step env repo_name push_branch server_key info).countP Ev.isSideOp = 0 := by
  constructor
  · simp [chain_step, hserver, hmismatch]
  · simp [chain_step, hserver, hmismatch, Ev.isSideOp, Ev.isNotify]

/-- Witness for C7: a push to "dev" against a target filtered to "main". -/
theorem C7_branch_gate_witness :
    (strStartsWith "server1" "server" = true)
    ∧ ("dev" ≠ (ServerInfo.mk (some "local") (some "main") "/srv/a"
        none false false false [] "" 22 "" none "").branch.getD "main")
    ∧ chain_step (TargetEnv.mk (fun _ => false) (fun _ => CmdResult.mk 0 "" "")
          (fun _ => CmdResult.mk 0 "" "") true true true true)
        "octo/app" "dev" "server1"
        (ServerInfo.mk (some "local") (some "main") "/srv/a"
          none false false false [] "" 22 "" none "") =
      [.notify "octo/app" "dev" .ignored (.branchMismatch "dev" "main" "server1")] := by
  refine ⟨by decide, by decide, ?_⟩
  exact (C7_branch_gate
    (TargetEnv.mk (fun _ => false) (fun _ => CmdResult.mk 0 "" "")
      (fun _ => CmdResult.mk 0 "" "") true true true true)
    "octo/app" "dev" "server1"
    (ServerInfo.mk (some "local") (some "main") "/srv/a"
      none false false false [] "" 22 "" none "")
    (by decide) (by decide)).1

/-- C9: a target whose `target` mode is neither "local" nor "remote"
yields a single `failed` notification whose message identifies the
unsupported mode, and no sync, container, or post-deploy task operation
is attempted. -/
theorem C9_unknown_mode (env : TargetEnv) (repo_name push_branch server_key : String)
    (info : ServerInfo)
    (hserver : strStartsWith server_key "server" = true)
    (hmatch : push_branch = info.branch.getD "main")
    (hlocal : info.target ≠ some "local")
    (hremote : info.target ≠ some "remote") :
    chain_step env repo_name push_branch server_key info =
      [.notify repo_name push_branch .failed (.unknownTarget info.target server_key)]
    ∧ (chain_step env repo_name push_branch server_key info).countP Ev.isSideOp = 0 := by
  constructor
  · simp [chain_step, hserver, hmatch, hlocal, hremote]
  · simp [chain_step, hserver, hmatch, hlocal, hremote, Ev.isSideOp, Ev.isNotify]

/-- Witness for C9: a target with mode "ftp". -/
theorem C9_unknown_mode_witness :
    chain_step (TargetEnv.mk (fun _ => true) (fun _ => CmdResult.mk 0 "" "")
        (fun _ => CmdResult.mk 0 "" "") true true true true)
      "octo/app" "main" "server1"
      (ServerInfo.mk (some "ftp") (some "main") "/srv/a"
        none false false false [] "" 22 "" none "") =
      [.notify "octo/app" "main" .failed (.unknownTarget (some "ftp") "server1")] := by
  exact (C9_unknown_mode
    (TargetEnv.mk (fun _ => true) (fun _ => CmdResult.mk 0 "" "")
      (fun _ => CmdResult.mk 0 "" "") true true true true)
    "octo/app" "main" "server1"
    (ServerInfo.mk (some "ftp") (some "main") "/srv/a"
      none false false false [] "" 22 "" none "")
    (by decide) (by decide) (by decide) (by decide)).1

/-- C4 counterexample: the claim requires the "all servers deployed"
terminal notification only on full success and a failure terminal
notification when a target failed; but on a one-target configuration
whose deployment fails (per-target `failed` notification emitted), the
completed run still emits the successful terminal notification and no
failure terminal notification, because `deploy_chain` swallows every
per-target exception and `run_deploy_chain` notifies success whenever the
executor call returns. -/
theorem C4_counterexample :
    ((run_deploy_chain false true (fun _ => envNoDir) "octo/app" "main"
        cfgFailing).countP Ev.isFailedNotify = 1)
    ∧ ((run_deploy_chain false true (fun _ => envNoDir) "octo/app" "main"
        cfgFailing).countP Ev.isTerminalSuccess = 1)
    ∧ ((run_deploy_chain false true (fun _ => envNoDir) "octo/app" "main"
        cfgFailing).countP Ev.isTerminalFailure = 0) := by
  decide

/-- C4 amended: every completed, non-cancelled chain run emits exactly one
terminal notification, and it is always the successful "all servers
deployed" one, regardless of per-target failures; the failure terminal
notification is never emitted (its code path would require the chain
function itself to raise, which per-target failures never cause). -/
theorem C4_amended_terminal (env : String → TargetEnv) (repo pb : String)
    (cfg : List (String × ServerInfo)) :
    ((run_deploy_chain false true env repo pb cfg).countP Ev.isTerminal = 1)
    ∧ ((run_deploy_chain false true env repo pb cfg).countP Ev.isTerminalSuccess = 1)
    ∧ ((run_deploy_chain false true env repo pb cfg).countP Ev.isTerminalFailure = 0) := by
  have hchain := terminal_deploy_chain env repo pb cfg
  have hsucc := countP_zero_of_imp terminalSuccess_imp_terminal _ hchain
  have hfail := countP_zero_of_imp terminalFailure_imp_terminal _ hchain
  unfold run_deploy_chain
  simp [List.countP_append, hchain, hsucc, hfail, List.countP_cons,
    Ev.isTerminal, Ev.isTerminalSuccess, Ev.isTerminalFailure]

/-- C1 counterexample: run A (two targets, all operations succeed) is
cancelled while its executor job is running; the claim requires A to stop
before issuing its next target's operations, but A's trace still contains
the second target's `git pull` — `task.cancel()` cannot interrupt the
synchronous chain running in the executor thread, so the chain runs to
completion.  (Only the terminal success notification is suppressed.) -/
theorem C1_counterexample :
    (Ev.cmd (.pull "/b" "main") "git pull origin main" ∈
      (supersession_traces (fun _ => envLocalNoChange) (fun _ => envLocalNoChange)
        "octo/app" "main" cfgTwo).1)
    ∧ ((supersession_traces (fun _ => envLocalNoChange) (fun _ => envLocalNoChange)
        "octo/app" "main" cfgTwo).1.countP Ev.isTerminalSuccess = 0) := by
  decide

/-- C1 amended: submitting run B for an active `(repo, branch)` key
cancels run A's task, which prevents run A from emitting a "successful"
terminal notification — but it does not stop A's in-flight chain: the
synchronous chain runs to completion in the executor thread and still
issues the remaining targets' operations.  Run B proceeds and emits its
own (successful) terminal notification. -/
theorem C1_amended_supersession (envA envB : String → TargetEnv)
    (repo pb : String) (cfg : List (String × ServerInfo)) :
    ((supersession_traces envA envB repo pb cfg).1.countP Ev.isTerminalSuccess = 0)
    ∧ ((supersession_traces envA envB repo pb cfg).1 =
        deploy_chain envA repo pb cfg)
    ∧ ((supersession_traces envA envB repo pb cfg).2.countP Ev.isTerminalSuccess = 1) := by
  have hchainA := terminal_deploy_chain envA repo pb cfg
  have hchainB := terminal_deploy_chain envB repo pb cfg
  have hsuccA := countP_zero_of_imp terminalSuccess_imp_terminal _ hchainA
  have hsuccB := countP_zero_of_imp terminalSuccess_imp_terminal _ hchainB
  unfold supersession_traces run_deploy_chain
  simp [List.countP_append, hsuccA, hsuccB, List.countP_cons,
    Ev.isTerminalSuccess]

end Theorems

/-- Auxiliary: the keys of `sorted_pairs` form a sublist of the sorted key
list. -/
theorem map_fst_filterMap_lookup_sublist (l : List String)
    (cfgl : List (String × ServerInfo)) :
    ((l.filterMap (fun k => (cfgl.lookup k).map (fun info => (k, info)))).map
      Prod.fst).Sublist l := by
  induction l with
  | nil => simp
  | cons k t ih =>
    rw [List.filterMap_cons]
    cases h : cfgl.lookup k with
    | none => exact ih.cons k
    | some v => simpa using ih.cons₂ k

/-- Auxiliary: each element's image is a contiguous segment of the
`flatMap`. -/
theorem flatMap_segment {α β : Type} (f : α → List β) {l : List α} {p : α}
    (hp : p ∈ l) : ∃ pre post, l.flatMap f = pre ++ (f p ++ post) := by
  obtain ⟨s, t, rfl⟩ := List.append_of_mem hp
  exact ⟨s.flatMap f, t.flatMap f, by simp⟩

/-- Per-key environment: `server1` has no directories (its local deploy
fails), every other target succeeds with a no-change pull. -/
def envMixed : String → TargetEnv :=
  fun k => if k = "server1" then envNoDir else envLocalNoChange

/-- A three-target local configuration, defined out of order. -/
def cfgThree : List (String × ServerInfo) :=
  [("server3", ServerInfo.mk (some "local") (some "main") "/c"
      none false false false [] "" 22 "" none ""),
   ("server1", ServerInfo.mk (some "local") (some "main") "/a"
      none false false false [] "" 22 "" none ""),
   ("server2", ServerInfo.mk (some "local") (some "main") "/b"
      none false false false [] "" 22 "" none "")]

/-- A permutation of `cfgThree`. -/
def cfgThreePerm : List (String × ServerInfo) :=
  [("server2", ServerInfo.mk (some "local") (some "main") "/b"
      none false false false [] "" 22 "" none ""),
   ("server3", ServerInfo.mk (some "local") (some "main") "/c"
      none false false false [] "" 22 "" none ""),
   ("server1", ServerInfo.mk (some "local") (some "main") "/a"
      none false false false [] "" 22 "" none "")]

section Theorems2

/-- C6: the chain processes its targets in ascending (lexicographic) key
order — the processed key sequence is sorted — and the chain's behaviour
is independent of the iteration order of the configuration map: any
permutation of the association list (with the distinct keys of a
dictionary) yields the same event trace. -/
theorem C6_sorted_order (env : String → TargetEnv) (repo pb : String)
    (cfg cfg2 : List (String × ServerInfo))
    (hperm : cfg.Perm cfg2) (hnd : (cfg.map Prod.fst).Nodup) :
    List.Sorted (fun a b => strLe a b = true) ((sorted_pairs cfg).map Prod.fst)
    ∧ deploy_chain env repo pb cfg = deploy_chain env repo pb cfg2 := by
  constructor
  · have hs : List.Sorted (fun a b => strLe a b = true)
        ((cfg.map Prod.fst).insertionSort (fun a b => strLe a b = true)) :=
      List.sorted_insertionSort _ _
    have hsub := map_fst_filterMap_lookup_sublist
      ((cfg.map Prod.fst).insertionSort (fun a b => strLe a b = true)) cfg
    exact List.Pairwise.sublist hsub hs
  · have hkp : (cfg.map Prod.fst).Perm (cfg2.map Prod.fst) := hperm.map Prod.fst
    have hpp : ((cfg.map Prod.fst).insertionSort (fun a b => strLe a b = true)).Perm
        ((cfg2.map Prod.fst).insertionSort (fun a b => strLe a b = true)) :=
      ((List.perm_insertionSort _ _).trans hkp).trans
        (List.perm_insertionSort _ _).symm
    have hkeys : (cfg.map Prod.fst).insertionSort (fun a b => strLe a b = true) =
        (cfg2.map Prod.fst).insertionSort (fun a b => strLe a b = true) :=
      List.eq_of_perm_of_sorted hpp (List.sorted_insertionSort _ _)
        (List.sorted_insertionSort _ _)
    have hfun : (fun k => (cfg.lookup k).map (fun info => (k, info))) =
        (fun k => (cfg2.lookup k).map (fun info => (k, info))) := by
      funext k
      rw [lookup_perm hperm hnd k]
    have hsp : sorted_pairs cfg = sorted_pairs cfg2 := by
      unfold sorted_pairs
      rw [hkeys, hfun]
    unfold deploy_chain
    rw [hsp]

/-- Witness for C6: a three-target configuration written out of order and
a permutation of it. -/
theorem C6_sorted_order_witness :
    List.Sorted (fun a b => strLe a b = true)
      ((sorted_pairs cfgThree).map Prod.fst)
    ∧ deploy_chain (fun _ => envLocalNoChange) "octo/app" "main" cfgThree =
        deploy_chain (fun _ => envLocalNoChange) "octo/app" "main" cfgThreePerm :=
  C6_sorted_order (fun _ => envLocalNoChange) "octo/app" "main"
    cfgThree cfgThreePerm (by decide) (by decide)

/-- C2: a target failure never aborts the chain: for every configuration
and every position `j` after a failing position `i`, the chain's trace
still contains target `j`'s complete event segment, computed from target
`j`'s own key and entry alone (outcomes are recorded independently).  This
holds because the loop body of `deploy_chain` catches every exception, so
the iteration never stops early. -/
theorem C2_failure_isolation (env : String → TargetEnv) (repo pb : String)
    (cfg : List (String × ServerInfo)) (i j : Nat)
    (hi : i < (sorted_pairs cfg).length) (hj : j < (sorted_pairs cfg).length)
    (hij : i < j)
    (hfail : (chain_step (env ((sorted_pairs cfg).get ⟨i, hi⟩).1) repo pb
        ((sorted_pairs cfg).get ⟨i, hi⟩).1
        ((sorted_pairs cfg).get ⟨i, hi⟩).2).countP Ev.isFailedNotify ≠ 0) :
    ∃ pre post,
      deploy_chain env repo pb cfg =
        pre ++ (chain_step (env ((sorted_pairs cfg).get ⟨j, hj⟩).1) repo pb
          ((sorted_pairs cfg).get ⟨j, hj⟩).1
          ((sorted_pairs cfg).get ⟨j, hj⟩).2 ++ post) := by
  unfold deploy_chain
  exact flatMap_segment (fun p => chain_step (env p.1) repo pb p.1 p.2)
    (List.get_mem (sorted_pairs cfg) j hj)

/-- Witness for C2: `server1` fails its sync (missing directory), yet
`server2`'s events still appear in the chain trace. -/
theorem C2_failure_isolation_witness :
    ∃ pre post,
      deploy_chain envMixed "octo/app" "main" cfgThree =
        pre ++ (chain_step (envMixed ((sorted_pairs cfgThree).get ⟨1, by decide⟩).1)
          "octo/app" "main" ((sorted_pairs cfgThree).get ⟨1, by decide⟩).1
          ((sorted_pairs cfgThree).get ⟨1, by decide⟩).2 ++ post) :=
  C2_failure_isolation envMixed "octo/app" "main" cfgThree 0 1
    (by decide) (by decide) (by decide) (by decide)

end Theorems2

/-- Classifier: the call-site tag of a command event. -/
def Ev.tag? : Ev → Option OpTag
  | .cmd tag _ => some tag
  | .ssh tag _ => some tag
  | _ => none

/-- A zero exit status makes `run_command` return the stripped output. -/
theorem run_ok {r : CmdResult} (h : r.exitCode = 0) (cmd : String) :
    run_command r cmd = .ok (pyStrip r.stdout, pyStrip r.stderr) := by
  simp [run_command, h]

/-- A zero exit status makes `exec_ssh_command` return the stripped
stdout. -/
theorem exec_ok {r : CmdResult} (h : r.exitCode = 0) (cmd : String) (ab : Bool) :
    exec_ssh_command r cmd ab = .ok (pyStrip r.stdout) := by
  simp [exec_ssh_command, h]

section Theorems3

/-- C8: the Ensure operation, in its local (`_ensure_local_repo`) and
remote (`_ensure_remote_repo`) forms.  Existing directory: no-op (remote:
only the existence-check command runs).  Absent with `create_dir` false:
a missing-directory error and no operation beyond the check.  Absent with
`create_dir` true but no `clone_url`: a configuration error and no clone.
Otherwise: the parent directory is created when needed and exactly one
clone of `clone_url` at the configured branch into the deploy directory
is issued. -/
theorem C8_ensure (env : TargetEnv) (d b : String) (u : Option String) (c : Bool) :
    (env.isdir d = true → ensure_local_repo env d u c b = ([], none))
    ∧ (env.isdir d = false → c = false →
        ensure_local_repo env d u c b = ([], some (.dirMissing d)))
    ∧ (env.isdir d = false → c = true → u = none →
        ensure_local_repo env d u c b = ([], some (.noCloneUrl d)))
    ∧ (env.isdir d = false → c = true → ∀ url, u = some url →
        ((ensure_local_repo env d u c b).1.filterMap Ev.tag? =
          [OpTag.clone url b d]
         ∧ (dirname d ≠ "" → env.isdir (dirname d) = false →
             Ev.makeDirs (dirname d) ∈ (ensure_local_repo env d u c b).1)))
    ∧ ((env.exec (.dirCheck d)).exitCode = 0 →
        pyStrip (pyStrip (env.exec (.dirCheck d)).stdout) = "EXISTS" →
        ((ensure_remote_repo env d u c b).1.filterMap Ev.tag? = [OpTag.dirCheck d]
         ∧ (ensure_remote_repo env d u c b).2 = none))
    ∧ ((env.exec (.dirCheck d)).exitCode = 0 →
        pyStrip (pyStrip (env.exec (.dirCheck d)).stdout) ≠ "EXISTS" → c = false →
        ((ensure_remote_repo env d u c b).1.filterMap Ev.tag? = [OpTag.dirCheck d]
         ∧ (ensure_remote_repo env d u c b).2 = some (.dirMissing d)))
    ∧ ((env.exec (.dirCheck d)).exitCode = 0 →
        pyStrip (pyStrip (env.exec (.dirCheck d)).stdout) ≠ "EXISTS" → c = true →
        u = none →
        ((ensure_remote_repo env d u c b).1.filterMap Ev.tag? = [OpTag.dirCheck d]
         ∧ (ensure_remote_repo env d u c b).2 = some (.noCloneUrl d)))
    ∧ ((env.exec (.dirCheck d)).exitCode = 0 →
        pyStrip (pyStrip (env.exec (.dirCheck d)).stdout) ≠ "EXISTS" → c = true →
        (dirname d = "" ∨ (env.exec (.mkParent (dirname d))).exitCode = 0) →
        ∀ url, u = some url →
        (ensure_remote_repo env d u c b).1.filterMap Ev.tag? =
          [OpTag.dirCheck d] ++
            (if dirname d = "" then [] else [OpTag.mkParent (dirname d)]) ++
            [OpTag.clone url b d]) := by
  refine ⟨?_, ?_, ?_, ?_, ?_, ?_, ?_, ?_⟩
  · intro hdir
    simp [ensure_local_repo, hdir]
  · intro hdir hc
    simp [ensure_local_repo, hdir, hc]
  · intro hdir hc hu
    subst hu
    simp [ensure_local_repo, hdir, hc]
  · intro hdir hc url hu
    subst hu
    unfold ensure_local_repo
    constructor
    · simp only [hdir, hc]
      repeat' split <;>
        simp_all [Ev.tag?, List.filterMap_append, -List.countP_eq_zero]
    · intro hpne hpdir
      simp only [hdir, hc]
      repeat' split <;>
        simp_all [Ev.tag?, -List.countP_eq_zero]
  · intro h0 hex
    unfold ensure_remote_repo
    simp only [exec_ok h0]
    simp [hex, Ev.tag?]
  · intro h0 hex hc
    unfold ensure_remote_repo
    simp only [exec_ok h0]
    simp [hex, hc, Ev.tag?]
  · intro h0 hex hc hu
    subst hu
    unfold ensure_remote_repo
    simp only [exec_ok h0]
    simp [hex, hc, Ev.tag?]
  · intro h0 hex hc hmk url hu
    subst hu
    unfold ensure_remote_repo
    simp only [exec_ok h0]
    by_cases hdm : dirname d = ""
    · have hmp : remote_mk_parent env (dirname d) = ([], none) := by
        simp [remote_mk_parent, hdm]
      simp only [hex, hc, hmp, hdm]
      repeat' split <;>
        first
          | rfl
          | simp_all [Ev.tag?, List.filterMap_append, -List.countP_eq_zero]
          | skip
    · rcases hmk with hmk | hmk
      · exact absurd hmk hdm
      · have hmp : remote_mk_parent env (dirname d) =
            ([Ev.ssh (.mkParent (dirname d)) s!"mkdir -p \"{dirname d}\""], none) := by
          simp [remote_mk_parent, hdm, exec_ok hmk]
        simp only [hex, hc, hmp, hdm]
        repeat' split <;>
          first
            | rfl
            | simp_all [Ev.tag?, List.filterMap_append, -List.countP_eq_zero]
            | skip

/-- Witness for C8: an absent directory with `create_dir` and a source
URL issues the parent creation and exactly one clone, locally and
remotely. -/
theorem C8_ensure_witness :
    ((ensure_local_repo envNoDir "/srv/app" (some "git@github.com:a/b.git")
        true "main").1.filterMap Ev.tag? =
      [OpTag.clone "git@github.com:a/b.git" "main" "/srv/app"])
    ∧ (Ev.makeDirs "/srv" ∈
        (ensure_local_repo envNoDir "/srv/app" (some "git@github.com:a/b.git")
          true "main").1)
    ∧ ((ensure_remote_repo envNoDir "/srv/app" (some "git@github.com:a/b.git")
        true "main").1.filterMap Ev.tag? =
      [OpTag.dirCheck "/srv/app", OpTag.mkParent "/srv",
       OpTag.clone "git@github.com:a/b.git" "main" "/srv/app"]) := by
  refine ⟨?_, ?_, ?_⟩
  · exact ((C8_ensure envNoDir "/srv/app" "main" (some "git@github.com:a/b.git")
      true).2.2.2.1 (by decide) (by decide) "git@github.com:a/b.git" rfl).1
  · exact ((C8_ensure envNoDir "/srv/app" "main" (some "git@github.com:a/b.git")
      true).2.2.2.1 (by decide) (by decide) "git@github.com:a/b.git" rfl).2
      (by decide) (by decide)
  · have := (C8_ensure envNoDir "/srv/app" "main" (some "git@github.com:a/b.git")
      true).2.2.2.2.2.2.2 (by decide) (by decide) (by decide)
      (Or.inr (by decide)) "git@github.com:a/b.git" rfl
    simpa using this

end Theorems3

/-- Environment for a fully successful no-change deployment on both the
local and the remote path. -/
def envBoth : TargetEnv :=
  TargetEnv.mk (fun _ => true) (fun _ => okOut "Already up to date.")
    execNoChange true true true true

/-- Target used in no-change witnesses. -/
def infoNoChange : ServerInfo :=
  ServerInfo.mk (some "local") (some "main") "/a"
    none false false false [] "h" 22 "u" none ""

section Theorems4

/-- C3 counterexample: for a local target with `force_rebuild = false`
whose pull reports "Already up to date.", the claim requires the deploy
step to bring the container stack up without rebuilding (the idempotent
ensure-running operation); but the local deploy path issues no container
operation at all — no `up` (with or without `--build`) and no `down` —
and completes successfully. -/
theorem C3_counterexample :
    ((deploy_local envBoth infoNoChange "octo/app" "main").1.countP
        Ev.isUpNoBuild = 0)
    ∧ ((deploy_local envBoth infoNoChange "octo/app" "main").1.countP
        Ev.isRebuild = 0)
    ∧ ((deploy_local envBoth infoNoChange "octo/app" "main").1.countP
        Ev.isDown = 0)
    ∧ ((deploy_local envBoth infoNoChange "octo/app" "main").2 = none) := by
  decide

/-- C3 amended: with `force_rebuild = false` and a pull reporting
"Already up to date.", no image rebuild and no teardown is issued on
either path; the remote path brings the stack up without rebuilding
(exactly one plain `up`), while the local path issues no container
operation at all; consequently two consecutive no-change deployments
trigger zero image rebuilds on either path. -/
theorem C3_amended_no_rebuild (env : TargetEnv) (info : ServerInfo) (repo pb : String)
    (hforce : info.force_rebuild = false)
    (hdir : env.isdir info.deploy_dir = true)
    (hlp0 : (env.run (.pull info.deploy_dir (info.branch.getD "main"))).exitCode = 0)
    (hlmark : substrIn "Already up to date."
        (pyStrip (env.run (.pull info.deploy_dir (info.branch.getD "main"))).stdout) = true)
    (hconn : env.connectOk = true)
    (hkey : env.keyLoadOk = true)
    (hkt : strToLower (info.key_type.getD "pem") = "pem" ∨
           strToLower (info.key_type.getD "pem") = "ppk")
    (hck0 : (env.exec (.dirCheck info.deploy_dir)).exitCode = 0)
    (hex : pyStrip (pyStrip (env.exec (.dirCheck info.deploy_dir)).stdout) = "EXISTS")
    (hrp0 : (env.exec (.pull info.deploy_dir (info.branch.getD "main"))).exitCode = 0)
    (hrmark : substrIn "Already up to date."
        (pyStrip (env.exec (.pull info.deploy_dir (info.branch.getD "main"))).stdout) = true)
    (hwd0 : (env.exec .whichDocker).exitCode = 0)
    (hcv0 : (env.exec .composeVersion).exitCode = 0)
    (hcvm : substrIn "Docker Compose version"
        (pyStrip (env.exec .composeVersion).stdout) = true)
    (hsud : info.use_sudo = true ∨ (env.exec .uname).exitCode = 0) :
    (((deploy_local env info repo pb).1.countP Ev.isRebuild = 0)
     ∧ ((deploy_local env info repo pb).1.countP Ev.isUpNoBuild = 0)
     ∧ ((deploy_local env info repo pb).1.countP Ev.isDown = 0)
     ∧ ((deploy_local env info repo pb).2 = none))
    ∧ (((deploy_remote env info repo pb).1.countP Ev.isRebuild = 0)
     ∧ ((deploy_remote env info repo pb).1.countP Ev.isDown = 0)
     ∧ ((deploy_remote env info repo pb).1.countP Ev.isUpNoBuild = 1))
    ∧ (((deploy_local env info repo pb).1 ++ (deploy_local env info repo pb).1).countP
        Ev.isRebuild = 0)
    ∧ (((deploy_remote env info repo pb).1 ++ (deploy_remote env info repo pb).1).countP
        Ev.isRebuild = 0) := by
  have hens : ensure_local_repo env info.deploy_dir info.clone_url
      info.create_dir (info.branch.getD "main") = ([], none) := by
    simp [ensure_local_repo, hdir]
  have htry : ((deploy_local_try env info).1.countP Ev.isRebuild = 0)
      ∧ ((deploy_local_try env info).1.countP Ev.isUpNoBuild = 0)
      ∧ ((deploy_local_try env info).1.countP Ev.isDown = 0)
      ∧ (deploy_local_try env info).2 = none := by
    unfold deploy_local_try
    simp only [hens, run_ok hlp0]
    simp [hlmark, hforce, Ev.isRebuild, Ev.isUpNoBuild, Ev.isDown]
  have hlocal : ((deploy_local env info repo pb).1.countP Ev.isRebuild = 0)
      ∧ ((deploy_local env info repo pb).1.countP Ev.isUpNoBuild = 0)
      ∧ ((deploy_local env info repo pb).1.countP Ev.isDown = 0)
      ∧ ((deploy_local env info repo pb).2 = none) := by
    obtain ⟨hA, hB, hC, hD⟩ := htry
    rcases hT : deploy_local_try env info with ⟨evs, err⟩
    rw [hT] at hA hB hC hD
    simp only at hD
    subst hD
    unfold deploy_local
    rw [hT]
    simp [List.countP_append, hA, hB, hC, Ev.isRebuild, Ev.isUpNoBuild, Ev.isDown]
  have hensR : ensure_remote_repo env info.deploy_dir info.clone_url
      info.create_dir (info.branch.getD "main") =
      ([Ev.ssh (.dirCheck info.deploy_dir)
          s!"[ -d \"{info.deploy_dir}\" ] && echo \"EXISTS\" || echo \"NOT_EXISTS\""],
        none) := by
    unfold ensure_remote_repo
    simp only [exec_ok hck0]
    simp [hex]
  have hdet : detect_docker_compose_binary env =
      ([Ev.ssh .whichDocker "which docker",
        Ev.ssh .composeVersion "docker compose version"], .ok "docker compose") := by
    unfold detect_docker_compose_binary detect_compose_v2
    simp only [exec_ok hwd0, exec_ok hcv0]
    simp [hcvm]
  have hpre : ∃ pevs dp, sudo_pre env info.use_sudo = (pevs, Except.ok dp)
      ∧ pevs.countP Ev.isRebuild = 0 ∧ pevs.countP Ev.isDown = 0
      ∧ pevs.countP Ev.isUpNoBuild = 0 := by
    by_cases hus : info.use_sudo = true
    · exact ⟨[], "sudo ", by simp [sudo_pre, hus], rfl, rfl, rfl⟩
    · rcases hsud with hsud | hsud
      · exact absurd hsud hus
      · refine ⟨[Ev.ssh .uname "uname -s"],
          if substrIn "Linux" (pyStrip (pyStrip (env.exec OpTag.uname).stdout))
            then "sudo " else "", ?_, rfl, rfl, rfl⟩
        simp [sudo_pre, hus, exec_ok hsud]
  obtain ⟨pevs, dp, hpre, hpR, hpD, hpU⟩ := hpre
  have htryR : ((deploy_remote_try env info).1.countP Ev.isRebuild = 0)
      ∧ ((deploy_remote_try env info).1.countP Ev.isDown = 0)
      ∧ ((deploy_remote_try env info).1.countP Ev.isUpNoBuild = 1) := by
    unfold deploy_remote_try
    simp only [hconn, hensR, exec_ok hrp0, hdet, hpre, hforce, hrmark]
    repeat' split <;>
      first
        | rfl
        | simp_all [Ev.isRebuild, Ev.isUpNoBuild, Ev.isDown,
            List.countP_append, List.countP_cons, -List.countP_eq_zero]
        | skip
  have hremote : ((deploy_remote env info repo pb).1.countP Ev.isRebuild = 0)
      ∧ ((deploy_remote env info repo pb).1.countP Ev.isDown = 0)
      ∧ ((deploy_remote env info repo pb).1.countP Ev.isUpNoBuild = 1) := by
    obtain ⟨hA, hB, hC⟩ := htryR
    rcases hT : deploy_remote_try env info with ⟨evs, err⟩
    rw [hT] at hA hB hC
    unfold deploy_remote
    rcases hkt with hk | hk <;>
      · simp only [hk, hkey]
        rw [hT]
        cases err <;>
          simp [List.countP_append, hA, hB, hC,
            Ev.isRebuild, Ev.isUpNoBuild, Ev.isDown]
  refine ⟨hlocal, hremote, ?_, ?_⟩
  · simp [List.countP_append, hlocal.1]
  · simp [List.countP_append, hremote.1]

/-- Witness for C3: a concrete no-change environment exercising both
paths. -/
theorem C3_amended_no_rebuild_witness :
    (((deploy_local envBoth infoNoChange "octo/app" "main").1.countP Ev.isRebuild = 0)
     ∧ ((deploy_local envBoth infoNoChange "octo/app" "main").1.countP Ev.isUpNoBuild = 0)
     ∧ ((deploy_local envBoth infoNoChange "octo/app" "main").1.countP Ev.isDown = 0)
     ∧ ((deploy_local envBoth infoNoChange "octo/app" "main").2 = none))
    ∧ (((deploy_remote envBoth infoNoChange "octo/app" "main").1.countP Ev.isRebuild = 0)
     ∧ ((deploy_remote envBoth infoNoChange "octo/app" "main").1.countP Ev.isDown = 0)
     ∧ ((deploy_remote envBoth infoNoChange "octo/app" "main").1.countP Ev.isUpNoBuild = 1))
    ∧ (((deploy_local envBoth infoNoChange "octo/app" "main").1 ++
        (deploy_local envBoth infoNoChange "octo/app" "main").1).countP Ev.isRebuild = 0)
    ∧ (((deploy_remote envBoth infoNoChange "octo/app" "main").1 ++
        (deploy_remote envBoth infoNoChange "octo/app" "main").1).countP Ev.isRebuild = 0) :=
  C3_amended_no_rebuild envBoth infoNoChange "octo/app" "main"
    (by decide) (by decide) (by decide) (by decide) (by decide) (by decide)
    (Or.inl (by decide)) (by decide) (by decide) (by decide) (by decide)
    (by decide) (by decide) (by decide) (Or.inr (by decide))

end Theorems4

end WebHookX
